import Mathlib

/-!
Shallow embedding of `src/anaerobic_codigestion_model.py`: the substrate
property table, mixture-property calculation, the Modified Gompertz curve
evaluator and the simulation driver. Python floats are modelled as real
numbers; Python exceptions (`ZeroDivisionError`, `ValueError`) are modelled
with `Except`.
-/

open Real Filter

/-- Python runtime errors raised by the modelled code paths:
`ZeroDivisionError` from float division by zero, `ValueError` from the
explicit `raise ValueError(...)` in `simulate`. -/
inductive PyError where
  | zeroDivisionError : PyError
  | valueError : String → PyError
deriving DecidableEq

/-- One substrate's entry of `SUBSTRATE_PROPERTIES` (Tabela 1).
The dict key `C/N` is rendered as the field `CN`. -/
structure SubstrateProps where
  pH : ℝ
  TS_percent : ℝ
  VS_percent : ℝ
  CN : ℝ
  sCOD_g_L : ℝ
  tCOD_g_L : ℝ

/-- The two entries of the `SUBSTRATE_PROPERTIES` dict: food waste (`FW`)
and cow manure (`CM`). -/
structure Substrates where
  FW : SubstrateProps
  CM : SubstrateProps

/-- The `SUBSTRATE_PROPERTIES` table, verbatim from the source. -/
noncomputable def SUBSTRATE_PROPERTIES : Substrates where
  FW := { pH := 4.9, TS_percent := 27.4, VS_percent := 91.20,
          CN := 20.79, sCOD_g_L := 74.1, tCOD_g_L := 205.8 }
  CM := { pH := 7.4, TS_percent := 19.2, VS_percent := 83.07,
          CN := 8.22, sCOD_g_L := 13.5, tCOD_g_L := 51.2 }

/-- The dict returned by `calc_mixture_properties`. The Python `ratio` field
is the formatted string `"FW_parts:CM_parts"`; it is kept here as the pair of
parts it is formatted from. -/
structure MixtureProps where
  ratio : ℝ × ℝ
  FW_percent : ℝ
  CM_percent : ℝ
  pH : ℝ
  TS_percent : ℝ
  VS_percent : ℝ
  CN : ℝ
  sCOD_g_L : ℝ
  tCOD_g_L : ℝ

/-- `calc_mixture_properties(ratio_FW_CM, TS_target, substrates)`.
The first float division executed is `FW_mass / total_mass` (line 104), which
raises `ZeroDivisionError` when `total_mass == 0`; the divisions
`FW_parts / total_parts` inside the dict literal (line 110) raise when
`total_parts == 0`. Otherwise the dict of blended properties is returned. -/
noncomputable def calc_mixture_properties (FW_parts CM_parts : ℝ) (TS_target : ℝ)
    (substrates : Substrates) : Except PyError MixtureProps :=
  let total_parts := FW_parts + CM_parts
  let FW_TS := substrates.FW.TS_percent
  let CM_TS := substrates.CM.TS_percent
  let FW_mass := FW_parts * FW_TS
  let CM_mass := CM_parts * CM_TS
  let total_mass := FW_mass + CM_mass
  if total_mass = 0 then Except.error PyError.zeroDivisionError
  else
    let FW_frac := FW_mass / total_mass
    let CM_frac := CM_mass / total_mass
    if total_parts = 0 then Except.error PyError.zeroDivisionError
    else Except.ok
      { ratio := (FW_parts, CM_parts)
        FW_percent := FW_parts / total_parts * 100.0
        CM_percent := CM_parts / total_parts * 100.0
        pH := FW_frac * substrates.FW.pH + CM_frac * substrates.CM.pH
        TS_percent := TS_target
        VS_percent := FW_frac * substrates.FW.VS_percent + CM_frac * substrates.CM.VS_percent
        CN := FW_frac * substrates.FW.CN + CM_frac * substrates.CM.CN
        sCOD_g_L := FW_frac * substrates.FW.sCOD_g_L + CM_frac * substrates.CM.sCOD_g_L
        tCOD_g_L := FW_frac * substrates.FW.tCOD_g_L + CM_frac * substrates.CM.tCOD_g_L }

/-- The arithmetic body of `gompertz_curve`, exactly as written in the source:
`e = np.e`, `exponent = (k_max * e / G0) * (lambda_ - t) + 1`,
`G = G0 * np.exp(-np.exp(exponent))`. -/
noncomputable def gompertzVal (t G0 k_max lambda_ : ℝ) : ℝ :=
  let e := Real.exp 1
  let exponent := (k_max * e / G0) * (lambda_ - t) + 1
  G0 * Real.exp (-Real.exp exponent)

/-- `gompertz_curve(t, G0, k_max, lambda_)`. The scalar float division
`k_max * e / G0` raises `ZeroDivisionError` in Python exactly when
`G0 == 0.0`; for every other input the closed-form value is returned.
No other validation is performed by the source. -/
noncomputable def gompertz_curve (t G0 k_max lambda_ : ℝ) : Except PyError ℝ :=
  if G0 = 0 then Except.error PyError.zeroDivisionError
  else Except.ok (gompertzVal t G0 k_max lambda_)

/-- One entry of the `GOMPERTZ_PARAMS` table (Tabela 6). -/
structure GompertzParamSet where
  G0 : ℝ
  k_max : ℝ
  lambda_ : ℝ
  FW_percent : ℝ
  description : String

/-- The `GOMPERTZ_PARAMS` dict, verbatim from the source, as an ordered
association list keyed by ratio name. -/
noncomputable def GOMPERTZ_PARAMS : List (String × GompertzParamSet) :=
  [("Ratio-8_0", { G0 := 139.75, k_max := 9.96, lambda_ := 0.77, FW_percent := 100.0,
                   description := "Resíduos Alimentares (100%)" }),
   ("Ratio-7_1", { G0 := 226.85, k_max := 19.33, lambda_ := 0.20, FW_percent := 87.5,
                   description := "RA 87.5% + EB 12.5%" }),
   ("Ratio-6_2", { G0 := 326.53, k_max := 26.96, lambda_ := 0.43, FW_percent := 75.0,
                   description := "ÓTIMO: RA 75% + EB 25%" }),
   ("Ratio-4_4", { G0 := 279.38, k_max := 20.98, lambda_ := 0.00, FW_percent := 50.0,
                   description := "Equilibrado: RA 50% + EB 50%" }),
   ("Ratio-2_6", { G0 := 240.81, k_max := 16.74, lambda_ := 0.00, FW_percent := 25.0,
                   description := "RA 25% + EB 75%" }),
   ("Ratio-1_7", { G0 := 213.48, k_max := 12.82, lambda_ := 0.00, FW_percent := 12.5,
                   description := "RA 12.5% + EB 87.5%" })]

/-- `SIMULATION_PARAMS['t_max']`. -/
def SIMULATION_PARAMS_t_max : ℝ := 25

/-- `SIMULATION_PARAMS['n_points']`. -/
def SIMULATION_PARAMS_n_points : ℕ := 200

/-- `SIMULATION_PARAMS['TS_target']`. -/
noncomputable def SIMULATION_PARAMS_TS_target : ℝ := 8.0

/-- `np.linspace(a, b, n)`: `n` evenly spaced points from `a` to `b`
inclusive, point `i` being `a + (b - a) * i / (n - 1)`. -/
noncomputable def linspace (a b : ℝ) (n : ℕ) : List ℝ :=
  (List.range n).map fun i : ℕ => a + (b - a) * (i : ℝ) / ((n : ℝ) - 1)

/-- The message of the `ValueError` raised by `simulate` for an unknown ratio
name: it names the offending input and renders the list of available keys. -/
def unknownRatioMessage (ratio_name : String) (params : List (String × GompertzParamSet)) :
    String :=
  "Proporção desconhecida: " ++ ratio_name ++ ". Disponíveis: " ++
    toString (params.map Prod.fst)

/-- `simulate(ratio_name, t_max, n_points, params)`: looks the name up in the
parameter table, raising `ValueError` when absent; then builds the time grid
`np.linspace(0, t_max, n_points)` and evaluates `gompertz_curve` across it
(whose scalar division raises `ZeroDivisionError` when the table's `G0` is
zero). Returns the pair of the time grid and the yield values. -/
noncomputable def simulate (ratio_name : String) (t_max : ℝ) (n_points : ℕ)
    (params : List (String × GompertzParamSet)) : Except PyError (List ℝ × List ℝ) :=
  match params.lookup ratio_name with
  | none => Except.error (PyError.valueError (unknownRatioMessage ratio_name params))
  | some param_set =>
    if param_set.G0 = 0 then Except.error PyError.zeroDivisionError
    else
      let t := linspace 0 t_max n_points
      Except.ok (t, t.map fun ti => gompertzVal ti param_set.G0 param_set.k_max param_set.lambda_)

/-- C1: for every time t, rate k_max, lag lambda and every G0 in the closed
form's domain (G0 ≠ 0; at G0 = 0 the Python division raises), gompertz_curve
returns exactly G0 * exp(-exp((k_max*e/G0)*(lambda - t) + 1)). -/
theorem C1_gompertz_closed_form (t G0 k_max lambda_ : ℝ) (hG : G0 ≠ 0) :
    gompertz_curve t G0 k_max lambda_ =
      Except.ok (G0 * Real.exp (-Real.exp (k_max * Real.exp 1 / G0 * (lambda_ - t) + 1))) := by
  simp [gompertz_curve, gompertzVal, hG]

/-- Witness for C1 at the optimal-ratio parameters and t = 10. -/
theorem C1_gompertz_closed_form_witness :
    (326.53 : ℝ) ≠ 0 ∧
      gompertz_curve 10 326.53 26.96 0.43 =
        Except.ok (326.53 * Real.exp (-Real.exp (26.96 * Real.exp 1 / 326.53 * (0.43 - 10) + 1))) :=
  ⟨by norm_num, C1_gompertz_closed_form 10 326.53 26.96 0.43 (by norm_num)⟩

/-- C2 counterexample: at ratio (1, 0) with TS_target = 8.0 and the default
substrate table, the returned record's total-solids field is 8.0, not the
pure food-waste substrate's own 27.4: not every blended property reduces to
the pure substrate's value. -/
theorem C2_counterexample :
    (calc_mixture_properties 1 0 8.0 SUBSTRATE_PROPERTIES).map MixtureProps.TS_percent =
        Except.ok 8.0 ∧
      (8.0 : ℝ) ≠ SUBSTRATE_PROPERTIES.FW.TS_percent := by
  constructor
  · norm_num [calc_mixture_properties, SUBSTRATE_PROPERTIES, Except.map]
  · norm_num [SUBSTRATE_PROPERTIES]

/-- C2 amended: at ratio (1, 0) every blended property other than total
solids (pH, VS%, C/N, sCOD, tCOD) equals the pure food-waste substrate's own
value and the TS_percent field equals the TS_target argument; symmetrically,
at ratio (0, 1) they equal the pure cow-manure substrate's values. -/
theorem C2_amended_pure_substrates (TS_target : ℝ) :
    (calc_mixture_properties 1 0 TS_target SUBSTRATE_PROPERTIES).map
        (fun m => (m.pH, m.VS_percent, m.CN, m.sCOD_g_L, m.tCOD_g_L, m.TS_percent)) =
      Except.ok (SUBSTRATE_PROPERTIES.FW.pH, SUBSTRATE_PROPERTIES.FW.VS_percent,
        SUBSTRATE_PROPERTIES.FW.CN, SUBSTRATE_PROPERTIES.FW.sCOD_g_L,
        SUBSTRATE_PROPERTIES.FW.tCOD_g_L, TS_target) ∧
    (calc_mixture_properties 0 1 TS_target SUBSTRATE_PROPERTIES).map
        (fun m => (m.pH, m.VS_percent, m.CN, m.sCOD_g_L, m.tCOD_g_L, m.TS_percent)) =
      Except.ok (SUBSTRATE_PROPERTIES.CM.pH, SUBSTRATE_PROPERTIES.CM.VS_percent,
        SUBSTRATE_PROPERTIES.CM.CN, SUBSTRATE_PROPERTIES.CM.sCOD_g_L,
        SUBSTRATE_PROPERTIES.CM.tCOD_g_L, TS_target) := by
  constructor <;>
    norm_num [calc_mixture_properties, SUBSTRATE_PROPERTIES, Except.map]

/-- C3: for the ratio (0, 0) both masses are zero, so the mass-fraction
division raises (the failure the spec names InvalidRatio) for every
TS_target and substrate table, and no mixture record is produced. -/
theorem C3_zero_zero_ratio_fails (TS_target : ℝ) (substrates : Substrates) :
    calc_mixture_properties 0 0 TS_target substrates =
      Except.error PyError.zeroDivisionError := by
  simp [calc_mixture_properties]

/-- C4 counterexample: at G0 = -1, which is not strictly positive, the source
performs no validation and returns a value instead of failing. -/
theorem C4_counterexample :
    ((-1 : ℝ) ≤ 0) ∧
      gompertz_curve 0 (-1) 1 1 = Except.ok (gompertzVal 0 (-1) 1 1) := by
  constructor
  · norm_num
  · rw [gompertz_curve, if_neg (by norm_num : ((-1 : ℝ) = 0) → False)]

/-- C4 amended: gompertz_curve performs no input validation; it fails (with
the division-by-zero error) exactly when G0 = 0, and accepts any k_max and
lambda, including negative ones. -/
theorem C4_amended_no_validation (t G0 k_max lambda_ : ℝ) :
    gompertz_curve t G0 k_max lambda_ = Except.error PyError.zeroDivisionError ↔ G0 = 0 := by
  by_cases h : G0 = 0 <;> simp [gompertz_curve, h]

/-- C9: for every ratio with nonnegative parts and positive total dry mass,
the returned record's TS_percent field equals the TS_target argument exactly,
whatever the ratio and substrate table. -/
theorem C9_TS_percent_is_target (FW_parts CM_parts TS_target : ℝ) (substrates : Substrates)
    (hFW : 0 ≤ FW_parts) (hCM : 0 ≤ CM_parts)
    (hmass : 0 < FW_parts * substrates.FW.TS_percent + CM_parts * substrates.CM.TS_percent) :
    (calc_mixture_properties FW_parts CM_parts TS_target substrates).map
        MixtureProps.TS_percent = Except.ok TS_target := by
  have hmass' :
      FW_parts * substrates.FW.TS_percent + CM_parts * substrates.CM.TS_percent ≠ 0 :=
    ne_of_gt hmass
  have hparts : FW_parts + CM_parts ≠ 0 := by
    intro h0
    have h1 : FW_parts = 0 := by linarith
    have h2 : CM_parts = 0 := by linarith
    rw [h1, h2] at hmass
    simp at hmass
  simp only [calc_mixture_properties]
  rw [if_neg hmass', if_neg hparts]
  rfl

/-- Witness for C9 at the optimal 6:2 ratio with the default table. -/
theorem C9_TS_percent_is_target_witness :
    (0 : ℝ) ≤ 6 ∧ (0 : ℝ) ≤ 2 ∧
      (0 : ℝ) < 6 * SUBSTRATE_PROPERTIES.FW.TS_percent +
        2 * SUBSTRATE_PROPERTIES.CM.TS_percent ∧
      (calc_mixture_properties 6 2 8.0 SUBSTRATE_PROPERTIES).map
          MixtureProps.TS_percent = Except.ok 8.0 :=
  ⟨by norm_num, by norm_num, by norm_num [SUBSTRATE_PROPERTIES],
    C9_TS_percent_is_target 6 2 8.0 SUBSTRATE_PROPERTIES (by norm_num) (by norm_num)
      (by norm_num [SUBSTRATE_PROPERTIES])⟩

/-- An infix of a list is an infix of any extension on the left. -/
theorem isInfix_of_isInfix_right {α : Type} {l l₂ : List α} (h : List.IsInfix l l₂)
    (l₁ : List α) : List.IsInfix l (l₁ ++ l₂) :=
  h.trans (List.suffix_append l₁ l₂).isInfix

/-- C5: for every ratio name absent from the parameter table, simulate fails
with the ValueError whose message names the input and lists the valid names
(each table key occurs in the message), and no curve value is produced. -/
theorem C5_unknown_ratio_error (ratio_name : String) (t_max : ℝ) (n_points : ℕ)
    (habs : GOMPERTZ_PARAMS.lookup ratio_name = none) :
    simulate ratio_name t_max n_points GOMPERTZ_PARAMS =
        Except.error (PyError.valueError (unknownRatioMessage ratio_name GOMPERTZ_PARAMS)) ∧
      ∀ k ∈ GOMPERTZ_PARAMS.map Prod.fst,
        List.IsInfix k.data (unknownRatioMessage ratio_name GOMPERTZ_PARAMS).data := by
  constructor
  · simp [simulate, habs]
  · intro k hk
    have hsuff : List.IsInfix (toString (GOMPERTZ_PARAMS.map Prod.fst)).data
        (unknownRatioMessage ratio_name GOMPERTZ_PARAMS).data := by
      simp only [unknownRatioMessage, String.data_append]
      exact (List.suffix_append _ _).isInfix
    have hk0 : List.IsInfix k.data (toString (GOMPERTZ_PARAMS.map Prod.fst)).data := by
      simp [GOMPERTZ_PARAMS] at hk
      rcases hk with rfl | rfl | rfl | rfl | rfl | rfl <;> decide
    exact hk0.trans hsuff

/-- Witness for C5 at the absent name Ratio-5_3. -/
theorem C5_unknown_ratio_error_witness :
    GOMPERTZ_PARAMS.lookup "Ratio-5_3" = none ∧
      simulate "Ratio-5_3" 25 200 GOMPERTZ_PARAMS =
        Except.error
          (PyError.valueError (unknownRatioMessage "Ratio-5_3" GOMPERTZ_PARAMS)) :=
  ⟨by rfl, (C5_unknown_ratio_error "Ratio-5_3" 25 200 (by rfl)).1⟩

/-- C7: for valid parameters (G0 > 0, k_max ≥ 0, lambda ≥ 0) the curve at the
end of the lag phase is strictly below the ultimate yield G0. -/
theorem C7_lag_value_below_G0 (G0 k_max lambda_ : ℝ) (hG : 0 < G0)
    (hk : 0 ≤ k_max) (hl : 0 ≤ lambda_) :
    gompertz_curve lambda_ G0 k_max lambda_ =
        Except.ok (gompertzVal lambda_ G0 k_max lambda_) ∧
      gompertzVal lambda_ G0 k_max lambda_ < G0 := by
  refine ⟨by simp [gompertz_curve, hG.ne'], ?_⟩
  simp only [gompertzVal]
  have h1 : Real.exp (-Real.exp ((k_max * Real.exp 1 / G0) * (lambda_ - lambda_) + 1)) < 1 :=
    Real.exp_lt_one_iff.mpr (neg_lt_zero.mpr (Real.exp_pos _))
  nlinarith [h1]

/-- Witness for C7 at the optimal-ratio parameters. -/
theorem C7_lag_value_below_G0_witness :
    (0 : ℝ) < 326.53 ∧ (0 : ℝ) ≤ 26.96 ∧ (0 : ℝ) ≤ 0.43 ∧
      (gompertz_curve 0.43 326.53 26.96 0.43 =
          Except.ok (gompertzVal 0.43 326.53 26.96 0.43) ∧
        gompertzVal 0.43 326.53 26.96 0.43 < 326.53) :=
  ⟨by norm_num, by norm_num, by norm_num,
    C7_lag_value_below_G0 326.53 26.96 0.43 (by norm_num) (by norm_num) (by norm_num)⟩

/-- C10: for every G0 > 0 and all finite t, k_max, lambda, the curve value is
strictly between 0 and G0: the asymptote is never reached at finite time. -/
theorem C10_strictly_between (t G0 k_max lambda_ : ℝ) (hG : 0 < G0) :
    gompertz_curve t G0 k_max lambda_ = Except.ok (gompertzVal t G0 k_max lambda_) ∧
      0 < gompertzVal t G0 k_max lambda_ ∧ gompertzVal t G0 k_max lambda_ < G0 := by
  refine ⟨by simp [gompertz_curve, hG.ne'], ?_, ?_⟩
  · simp only [gompertzVal]
    exact mul_pos hG (Real.exp_pos _)
  · simp only [gompertzVal]
    have h1 : Real.exp (-Real.exp ((k_max * Real.exp 1 / G0) * (lambda_ - t) + 1)) < 1 :=
      Real.exp_lt_one_iff.mpr (neg_lt_zero.mpr (Real.exp_pos _))
    nlinarith [h1]

/-- Witness for C10 at t = 10 with the optimal-ratio parameters. -/
theorem C10_strictly_between_witness :
    (0 : ℝ) < 326.53 ∧
      (gompertz_curve 10 326.53 26.96 0.43 = Except.ok (gompertzVal 10 326.53 26.96 0.43) ∧
        0 < gompertzVal 10 326.53 26.96 0.43 ∧ gompertzVal 10 326.53 26.96 0.43 < 326.53) :=
  ⟨by norm_num, C10_strictly_between 10 326.53 26.96 0.43 (by norm_num)⟩

/-- C6 counterexample: the parameter set G0 = 1, k_max = 0, lambda = 0 is
valid in the claim's sense, yet the curve is the constant exp(-e) and does
not tend to G0 = 1 as t tends to infinity. -/
theorem C6_counterexample :
    (0 : ℝ) < 1 ∧ (0 : ℝ) ≤ 0 ∧
      ¬ Filter.Tendsto (fun t : ℝ => gompertzVal t 1 0 0) Filter.atTop (nhds 1) := by
  refine ⟨by norm_num, le_refl 0, ?_⟩
  intro hT
  have hconst : (fun t : ℝ => gompertzVal t 1 0 0) =
      fun _ : ℝ => Real.exp (-Real.exp 1) := by
    funext t
    norm_num [gompertzVal]
  rw [hconst] at hT
  have h2 : Real.exp (-Real.exp 1) = 1 := tendsto_nhds_unique tendsto_const_nhds hT
  have h3 : -Real.exp 1 = 0 := (Real.exp_eq_one_iff (-Real.exp 1)).mp h2
  have h4 := Real.exp_pos 1
  linarith

/-- C6 amended: for G0 > 0 and k_max ≥ 0 the curve is monotonically
non-decreasing on t ≥ 0; when additionally k_max > 0 (a strictly positive
rate), the value tends to G0 as t tends to infinity. (At k_max = 0 the curve
is constant at G0·exp(-e) and does not approach G0.) -/
theorem C6_amended_monotone_and_limit (G0 k_max lambda_ : ℝ) (hG : 0 < G0) (hk : 0 ≤ k_max) :
    (∀ t₁ t₂ : ℝ, 0 ≤ t₁ → t₁ ≤ t₂ →
        gompertzVal t₁ G0 k_max lambda_ ≤ gompertzVal t₂ G0 k_max lambda_) ∧
      (0 < k_max →
        Filter.Tendsto (fun t : ℝ => gompertzVal t G0 k_max lambda_) Filter.atTop (nhds G0)) := by
  have hc : 0 ≤ k_max * Real.exp 1 / G0 := by positivity
  constructor
  · intro t₁ t₂ ht0 ht
    simp only [gompertzVal]
    have h1 : (k_max * Real.exp 1 / G0) * (lambda_ - t₂) ≤
        (k_max * Real.exp 1 / G0) * (lambda_ - t₁) :=
      mul_le_mul_of_nonneg_left (by linarith) hc
    have h2 : Real.exp ((k_max * Real.exp 1 / G0) * (lambda_ - t₂) + 1) ≤
        Real.exp ((k_max * Real.exp 1 / G0) * (lambda_ - t₁) + 1) :=
      Real.exp_le_exp.mpr (by linarith)
    have h3 : Real.exp (-Real.exp ((k_max * Real.exp 1 / G0) * (lambda_ - t₁) + 1)) ≤
        Real.exp (-Real.exp ((k_max * Real.exp 1 / G0) * (lambda_ - t₂) + 1)) :=
      Real.exp_le_exp.mpr (by linarith)
    exact mul_le_mul_of_nonneg_left h3 hG.le
  · intro hkpos
    simp only [gompertzVal]
    have hcpos : 0 < k_max * Real.exp 1 / G0 :=
      div_pos (mul_pos hkpos (Real.exp_pos 1)) hG
    have ha : Filter.Tendsto (fun t : ℝ => (k_max * Real.exp 1 / G0) * t)
        Filter.atTop Filter.atTop :=
      Filter.Tendsto.const_mul_atTop hcpos Filter.tendsto_id
    have hb : Filter.Tendsto (fun t : ℝ => -((k_max * Real.exp 1 / G0) * t))
        Filter.atTop Filter.atBot :=
      Filter.tendsto_neg_atTop_atBot.comp ha
    have hc2 : Filter.Tendsto
        (fun t : ℝ => ((k_max * Real.exp 1 / G0) * lambda_ + 1) +
          -((k_max * Real.exp 1 / G0) * t)) Filter.atTop Filter.atBot :=
      Filter.tendsto_atBot_add_const_left Filter.atTop _ hb
    have h1 : Filter.Tendsto (fun t : ℝ => (k_max * Real.exp 1 / G0) * (lambda_ - t) + 1)
        Filter.atTop Filter.atBot :=
      hc2.congr fun t => by ring
    have h2 : Filter.Tendsto
        (fun t : ℝ => Real.exp ((k_max * Real.exp 1 / G0) * (lambda_ - t) + 1))
        Filter.atTop (nhds 0) :=
      Real.tendsto_exp_atBot.comp h1
    have h3 : Filter.Tendsto
        (fun t : ℝ => -Real.exp ((k_max * Real.exp 1 / G0) * (lambda_ - t) + 1))
        Filter.atTop (nhds 0) := by
      have h3a := h2.neg
      rwa [neg_zero] at h3a
    have h4 : Filter.Tendsto
        (fun t : ℝ => Real.exp (-Real.exp ((k_max * Real.exp 1 / G0) * (lambda_ - t) + 1)))
        Filter.atTop (nhds 1) := by
      have h4a := (Real.continuous_exp.tendsto 0).comp h3
      rwa [Real.exp_zero] at h4a
    have h5 := h4.const_mul G0
    rwa [mul_one] at h5

/-- Witness for C6's amended statement at G0 = 1, k_max = 1, lambda = 0:
one monotonicity instance and the limit. -/
theorem C6_amended_monotone_and_limit_witness :
    gompertzVal 0 1 1 0 ≤ gompertzVal 1 1 1 0 ∧
      Filter.Tendsto (fun t : ℝ => gompertzVal t 1 1 0) Filter.atTop (nhds 1) :=
  ⟨(C6_amended_monotone_and_limit 1 1 0 (by norm_num) (by norm_num)).1 0 1
      (by norm_num) (by norm_num),
    (C6_amended_monotone_and_limit 1 1 0 (by norm_num) (by norm_num)).2 (by norm_num)⟩

/-- Mapping a function over a list maps its last element. -/
theorem getLast?_map_eq {α β : Type} (f : α → β) (l : List α) :
    (l.map f).getLast? = l.getLast?.map f := by
  induction l with
  | nil => rfl
  | cons a l ih =>
    cases l with
    | nil => rfl
    | cons b l' =>
      rw [List.map_cons, List.map_cons, List.getLast?_cons_cons, ← List.map_cons,
        List.getLast?_cons_cons]
      exact ih

/-- C8: simulate on Ratio-6_2 over [0, 25] with 200 points succeeds; the
final yield entry is the curve value at t = 25, which is strictly below
G0 = 326.53 and within 4 mL/g VS of it (the asymptote approached from
below; the true gap is about 3.56). -/
theorem C8_final_yield_near_G0 :
    ∃ ts Gs : List ℝ,
      simulate "Ratio-6_2" SIMULATION_PARAMS_t_max SIMULATION_PARAMS_n_points GOMPERTZ_PARAMS =
          Except.ok (ts, Gs) ∧
        Gs.getLast? = some (gompertzVal 25 326.53 26.96 0.43) ∧
        gompertzVal 25 326.53 26.96 0.43 < 326.53 ∧
        326.53 - gompertzVal 25 326.53 26.96 0.43 < 4 := by
  have hlk : GOMPERTZ_PARAMS.lookup "Ratio-6_2" =
      some { G0 := 326.53, k_max := 26.96, lambda_ := 0.43, FW_percent := 75.0,
             description := "ÓTIMO: RA 75% + EB 25%" } := rfl
  refine ⟨linspace 0 SIMULATION_PARAMS_t_max SIMULATION_PARAMS_n_points,
    (linspace 0 SIMULATION_PARAMS_t_max SIMULATION_PARAMS_n_points).map
      (fun ti => gompertzVal ti 326.53 26.96 0.43), ?_, ?_, ?_, ?_⟩
  · simp only [simulate, hlk]
    rw [if_neg (by norm_num : ¬((326.53 : ℝ) = 0))]
  · simp only [SIMULATION_PARAMS_t_max, SIMULATION_PARAMS_n_points, linspace,
      List.getLast?_eq_getElem?, List.length_map, List.length_range, List.getElem?_map]
    norm_num [List.getElem?_range, Option.map_some']
  · simp only [gompertzVal]
    have h1 : Real.exp (-Real.exp ((26.96 * Real.exp 1 / 326.53) * (0.43 - 25) + 1)) < 1 :=
      Real.exp_lt_one_iff.mpr (neg_lt_zero.mpr (Real.exp_pos _))
    nlinarith [h1]
  · simp only [gompertzVal]
    have he := Real.exp_one_gt_d9
    have hx : (26.96 * Real.exp 1 / 326.53) * (0.43 - 25) + 1 ≤ -4.51 := by
      have h0 : (26.96 * Real.exp 1 / 326.53) * (0.43 - 25) + 1
          = 1 - (26.96 * 24.57 / 326.53) * Real.exp 1 := by ring
      have h1 : (26.96 * 24.57 / 326.53 : ℝ) * 2.7182818283 ≤
          (26.96 * 24.57 / 326.53) * Real.exp 1 :=
        mul_le_mul_of_nonneg_left he.le (by norm_num)
      have h2 : (5.51 : ℝ) ≤ (26.96 * 24.57 / 326.53 : ℝ) * 2.7182818283 := by norm_num
      rw [h0]
      linarith
    have hy : Real.exp ((26.96 * Real.exp 1 / 326.53) * (0.43 - 25) + 1) ≤
        Real.exp (-4.51 : ℝ) := Real.exp_le_exp.mpr hx
    have hB : (2.7182818283 : ℝ) ^ 4 * 1.51 ≤ Real.exp (4.51 : ℝ) := by
      have h1 : Real.exp (4.51 : ℝ) = Real.exp (4 : ℝ) * Real.exp (0.51 : ℝ) := by
        rw [← Real.exp_add]; norm_num
      have h2 : (2.7182818283 : ℝ) ^ 4 ≤ Real.exp 1 ^ 4 :=
        pow_le_pow_left₀ (by norm_num) he.le 4
      have h3 : Real.exp 1 ^ 4 = Real.exp (4 : ℝ) := by
        rw [Real.exp_one_pow]; norm_num
      have h4 : (1.51 : ℝ) ≤ Real.exp (0.51 : ℝ) := by
        have h5 := Real.add_one_le_exp (0.51 : ℝ)
        linarith
      have h6 : (0 : ℝ) < Real.exp 1 ^ 4 := by positivity
      rw [h1, ← h3]
      nlinarith [h2, h4, h6]
    have hinv : (Real.exp (4.51 : ℝ))⁻¹ ≤ ((2.7182818283 : ℝ) ^ 4 * 1.51)⁻¹ :=
      inv_anti₀ (by positivity) hB
    have hyB : Real.exp ((26.96 * Real.exp 1 / 326.53) * (0.43 - 25) + 1) ≤
        ((2.7182818283 : ℝ) ^ 4 * 1.51)⁻¹ := by
      calc Real.exp ((26.96 * Real.exp 1 / 326.53) * (0.43 - 25) + 1)
          ≤ Real.exp (-4.51 : ℝ) := hy
        _ = (Real.exp (4.51 : ℝ))⁻¹ := Real.exp_neg 4.51
        _ ≤ ((2.7182818283 : ℝ) ^ 4 * 1.51)⁻¹ := hinv
    have hexp : 1 - Real.exp ((26.96 * Real.exp 1 / 326.53) * (0.43 - 25) + 1) ≤
        Real.exp (-Real.exp ((26.96 * Real.exp 1 / 326.53) * (0.43 - 25) + 1)) := by
      have h7 := Real.add_one_le_exp
        (-Real.exp ((26.96 * Real.exp 1 / 326.53) * (0.43 - 25) + 1))
      linarith
    have hnum : (326.53 : ℝ) * ((2.7182818283 : ℝ) ^ 4 * 1.51)⁻¹ < 4 := by norm_num
    nlinarith [hexp, hyB, hnum]
